import Mathlib

/-!
Verification of the prod-ocr ingestion pipeline.

This file gives a shallow embedding, in Lean, of the validated, retryable
PDF-ingestion pipeline of the repository (the `prod-ocr` application):

* `modules/validators/input_validator.py` — request validation
  (`validate_correlation_key`, `validate_blob_url`, `parse_queue_message`,
  `ValidatedRequest.from_queue_message`);
* `modules/utils/pdf_utils.py` — page splitting (`combine_pdf_pages`,
  `extract_pdf_pages`);
* `modules/utils/zip_utils.py` — result packaging (`create_results_zip`);
* `modules/document_splitter/splitter.py` — boundary extraction, rotation
  estimation and the pure transformation helpers (`extract_documents`,
  `extract_rotation_info`, `extract_rotation_info_safe`,
  `_create_pages_info`, `_extract_doc_fields`, `_transform_document`,
  `split_and_save`);
* `function_app.py` — the queue-triggered orchestrator (`process_pdf_file`
  and its helper wrappers).

External collaborators (the Gemini model, Azure storage and queue clients,
the filesystem, `urllib.parse.urlparse`, `pypdf`) are modelled as oracle
inputs: each blocking or external step is a field of an environment record
holding that step's result, and the embedded code is the pure decision
logic the source runs on those results.  Python exceptions are modelled
with `Except`; the dynamic typing relevant to the claims (a `str`
compared against a `list`) is modelled with an explicit sum type.
-/

/-! ## Python-value model -/

/-- Model of a decoded JSON value as produced by Python's `json.loads`
(JSON floats do not occur in any claim and are not modelled). -/
inductive PyJson where
  | null
  | bool (b : Bool)
  | int (n : Int)
  | str (s : String)
  | arr (xs : List PyJson)
  | obj (kvs : List (String × PyJson))

/-- Python truthiness of a JSON value (`bool(v)`): `None`, `False`, `0`,
empty string, empty list and empty dict are falsy. -/
def PyJson.isTruthy : PyJson → Bool
  | .null => false
  | .bool b => b
  | .int n => n != 0
  | .str s => s != ""
  | .arr xs => !xs.isEmpty
  | .obj kvs => !kvs.isEmpty

/-- Model of `dict.get(key)` on a decoded JSON object.  `json.loads`
keeps the last occurrence of a duplicated key, hence the search from the
end of the association list. -/
def pyGet (kvs : List (String × PyJson)) (key : String) : Option PyJson :=
  (kvs.reverse.find? (fun kv => kv.1 == key)).map (fun kv => kv.2)

/-- Python `a or b` over two optional field values: the first operand is
kept when it is present and truthy, otherwise the second is used. -/
def pyOrGet (a b : Option PyJson) : Option PyJson :=
  match a with
  | some v => if v.isTruthy then some v else b
  | none => b

/-- A Python runtime value that is either a string or a list of strings.
`validate_blob_url` declares its `allowed_container` parameter as `str`,
but Python does not enforce annotations, and one caller passes a
`List[str]`; this type makes both calls representable. -/
inductive PyVal where
  | pystr (s : String)
  | pylist (xs : List String)

/-- Python equality `container == allowed_container` between a string and
a `PyVal`.  In Python, `str == list` is always `False` regardless of the
contents, which is what the second branch records. -/
def pyStrEq (s : String) (v : PyVal) : Bool :=
  match v with
  | .pystr t => s == t
  | .pylist _ => false

/-! ## Error taxonomy (modules/validators/errors.py)

The `prod-ocr` code imports `ProcessingError`, `ErrorSeverity`,
`ConfigurationError` and `ValidationError` from `modules.validators.errors`;
they are plain exception carriers (the sibling stand-alone application
ships the identical definitions).  Python's built-in `ValueError` and the
catch-all `except Exception` case are carried by the last two
constructors. -/

/-- The three-valued severity attached to a `ProcessingError`. -/
inductive ErrorSeverity where
  | transient
  | permanent
  | critical
deriving DecidableEq

/-- The exceptions distinguished by the orchestrator's `except` chain. -/
inductive PyExc where
  | configurationError (msg : String)
  | validationError (msg : String)
  | processingError (msg : String) (severity : ErrorSeverity)
  | valueError (msg : String)
  | otherError (msg : String)
deriving DecidableEq

/-- Python `str(e)`: the message the exception was constructed with. -/
def PyExc.message : PyExc → String
  | .configurationError m => m
  | .validationError m => m
  | .processingError m _ => m
  | .valueError m => m
  | .otherError m => m

/-- Whether an `Except` result models a raised exception. -/
def isErr {α : Type} (r : Except PyExc α) : Bool :=
  match r with
  | .error _ => true
  | .ok _ => false

/-! ## Correlation-key validation (input_validator.validate_correlation_key) -/

/-- A character accepted by the class `[a-zA-Z0-9\-_]` of
`CORRELATION_KEY_PATTERN` (ASCII letters, digits, hyphen, underscore). -/
def allowedKeyChar (c : Char) : Bool :=
  c.isAlpha || c.isDigit || c == '-' || c == '_'

/-- The body of the regex `[a-zA-Z0-9\-_]{1,128}` matched against the
whole input: between 1 and 128 characters, all from the class. -/
def correlationKeyCore (s : List Char) : Bool :=
  decide (1 ≤ s.length) && decide (s.length ≤ 128) && s.all allowedKeyChar

/-- Python `re.match` of `^[a-zA-Z0-9\-_]{1,128}$` against a string.
In Python, the `$` anchor matches at the end of the string or just
before a newline that is the last character, so a string made of a
valid core followed by exactly one terminal newline also matches. -/
def correlationKeyPattern (s : List Char) : Bool :=
  correlationKeyCore s ||
    (decide (s.getLast? = some '\n') && correlationKeyCore s.dropLast)

/-- Character-level `str.split(sep)` used to model how
`pathlib.PurePosixPath` decomposes its argument. -/
def splitChar (sep : Char) : List Char → List (List Char)
  | [] => [[]]
  | c :: cs =>
    let rest := splitChar sep cs
    if c = sep then [] :: rest
    else
      match rest with
      | [] => [[c]]
      | h :: t => (c :: h) :: t

/-- The `parts` of `PurePosixPath(key)`: the slash-separated components
with empty components and single dots dropped (the key never carries a
drive or root in the validated alphabet; a leading slash is handled in
`posixStr`). -/
def posixParts (key : String) : List (List Char) :=
  (splitChar '/' key.toList).filter (fun p => !p.isEmpty && p != ['.'])

/-- The characters of `str(PurePosixPath(key))`: the filtered components
rejoined with single slashes, a leading slash preserved, and `.` for an
argument that normalizes to the empty path. -/
def posixStr (key : String) : List Char :=
  if key.toList.head? = some '/' then '/' :: List.intercalate ['/'] (posixParts key)
  else if (List.intercalate ['/'] (posixParts key)).isEmpty then ['.']
  else List.intercalate ['/'] (posixParts key)

/-- Shallow embedding of `validate_correlation_key` from
`modules/validators/input_validator.py`: empty-key check, the regex
whitelist, then the `PurePosixPath` normalization check. -/
def validate_correlation_key (key : String) : Except PyExc String :=
  if key = "" then
    .error (.validationError ("Correlation key is required"))
  else if !correlationKeyPattern key.toList then
    .error (.validationError ("Invalid correlation key format. Must be 1-128 alphanumeric characters, hyphens, or underscores. Got: " ++ key.take 50))
  else if (posixParts key).length != 1 || posixStr key != key.toList then
    .error (.validationError ("Correlation key must not contain path separators: " ++ key.take 50))
  else
    .ok key

/-! ## Blob-URL validation (input_validator.validate_blob_url) -/

/-- The components of `urllib.parse.urlparse(url)` that the validator
reads.  `urlparse` itself is an external collaborator; the orchestrator
environment supplies it as a function `String → Url`. -/
structure Url where
  scheme : String
  hostname : Option String
  path : String

/-- The module constant `ALLOWED_BLOB_DOMAINS`. -/
def ALLOWED_BLOB_DOMAINS : List String := [".blob.core.windows.net"]

/-- Python `str.strip('/')`: remove leading and trailing slashes. -/
def stripSlashes (s : String) : String :=
  String.mk (((s.toList.dropWhile (fun c => c == '/')).reverse.dropWhile (fun c => c == '/')).reverse)

/-- Python `str.endswith(suffix)`, character-wise. -/
def strEndsWith (s suffix : String) : Bool :=
  List.isSuffixOf suffix.toList s.toList

/-- Python `str.split('/')`, character-wise (the separator used by the
validator is always the single slash). -/
def pySplitSlash (s : String) : List String :=
  (splitChar '/' s.toList).map (fun l => String.mk l)

/-- Shallow embedding of `validate_blob_url` from
`modules/validators/input_validator.py`.  The checks run in source
order: emptiness, length, scheme, hostname presence (`not
parsed.hostname` is true for both a missing and an empty hostname, hence
the `getD` against the empty string), domain suffix, path shape (at
least container plus blob name), container equality.  The
`allowed_container` parameter is a `PyVal` because Python does not
enforce the declared `str` annotation (`from_queue_message` passes a
list). -/
def validate_blob_url (url : String) (urlparse : String → Url) (allowed_container : PyVal) : Except PyExc String :=
  if url = "" then
    .error (.validationError ("Blob URL is required"))
  else if 2048 < url.length then
    .error (.validationError ("Blob URL too long: " ++ toString url.length ++ " characters (max: 2048)"))
  else if (urlparse url).scheme ≠ "https" then
    .error (.validationError ("Blob URL must use HTTPS, got: " ++ (urlparse url).scheme))
  else if (urlparse url).hostname.getD ("") = "" then
    .error (.validationError ("Blob URL missing hostname"))
  else if !(ALLOWED_BLOB_DOMAINS.any (fun domain => strEndsWith ((urlparse url).hostname.getD ("")) domain)) then
    .error (.validationError ("URL must be Azure Blob Storage (*.blob.core.windows.net), got: " ++ (urlparse url).hostname.getD ("")))
  else if (pySplitSlash (stripSlashes (urlparse url).path)).length < 2 then
    .error (.validationError ("Invalid blob URL path format: " ++ (urlparse url).path))
  else if !pyStrEq ((pySplitSlash (stripSlashes (urlparse url).path)).headD ("")) allowed_container then
    .error (.validationError ("Unauthorized container: " ++ (pySplitSlash (stripSlashes (urlparse url).path)).headD ("")))
  else
    .ok url

/-! ## Queue-message parsing (input_validator.parse_queue_message,
ValidatedRequest.from_queue_message) -/

/-- The `ProcessingRequest` TypedDict. -/
structure ProcessingRequest where
  correlationKey : String
  pdfBlobUrl : String

/-- Shallow embedding of `parse_queue_message`.  The argument is the
result of decoding the message body as UTF-8 and parsing it as JSON
(`.error` covers `UnicodeDecodeError` and `json.JSONDecodeError`, both
of which the source converts to `ValidationError`). -/
def parse_queue_message (decoded : Except String PyJson) : Except PyExc ProcessingRequest :=
  match decoded with
  | .error e => .error (.validationError ("Invalid message: " ++ e))
  | .ok data =>
    match data with
    | .obj kvs =>
      match pyOrGet (pyGet kvs ("correlationKey")) (pyGet kvs ("correlation_key")) with
      | none => .error (.validationError ("Missing required field: correlationKey"))
      | some ck =>
        if !ck.isTruthy then
          .error (.validationError ("Missing required field: correlationKey"))
        else
          match pyOrGet (pyGet kvs ("pdfBlobUrl")) (pyGet kvs ("pdf_blob_url")) with
          | none => .error (.validationError ("Missing required field: pdfBlobUrl"))
          | some url =>
            if !url.isTruthy then
              .error (.validationError ("Missing required field: pdfBlobUrl"))
            else
              match ck with
              | .str cks =>
                match url with
                | .str urls => .ok ⟨cks, urls⟩
                | _ => .error (.validationError ("pdfBlobUrl must be string"))
              | _ => .error (.validationError ("correlationKey must be string"))
    | _ => .error (.validationError ("Expected JSON object"))

/-- The immutable `ValidatedRequest`. -/
structure ValidatedRequest where
  correlation_key : String
  pdf_blob_url : String

/-- Shallow embedding of `ValidatedRequest.from_queue_message`: parse the
message, validate the correlation key, validate the blob URL.  The
`allowed` argument models whatever Python value the caller passes as
`allowed_containers` (the annotation says `List[str]`; the production
caller passes a single `str`). -/
def from_queue_message (decoded : Except String PyJson) (allowed : PyVal) (urlparse : String → Url) : Except PyExc ValidatedRequest :=
  match parse_queue_message decoded with
  | .error e => .error e
  | .ok request =>
    match validate_correlation_key request.correlationKey with
    | .error e => .error e
    | .ok correlation_key =>
      match validate_blob_url request.pdfBlobUrl urlparse allowed with
      | .error e => .error e
      | .ok pdf_blob_url => .ok ⟨correlation_key, pdf_blob_url⟩

/-! ## Page splitting (modules/utils/pdf_utils.py)

`pypdf` is external: a PDF on disk is modelled by its raw bytes plus the
page list `PdfReader` yields for it (`none` when reading, page selection
or writing raises).  The bytes `PdfWriter` produces for a given page list
are modelled symbolically by the `fromPages` constructor, so that "a
document built from exactly these pages" and "the raw source file read
back verbatim" are distinguishable values. -/

/-- A source PDF file as the splitter sees it.  `content` is the byte
string `open(pdf_path, 'rb').read()` returns; `parsed` is the page list
of `PdfReader(pdf_path)`, or `none` when any step inside the `try` block
of `combine_pdf_pages` raises. -/
structure PdfFile where
  content : List Nat
  parsed : Option (List Nat)

/-- The bytes `combine_pdf_pages` returns: either the output of
`PdfWriter` over an explicit page list, or the source file's raw bytes. -/
inductive PdfBytes where
  | fromPages (pages : List Nat)
  | rawFile (content : List Nat)
deriving DecidableEq

/-- Whether the returned bytes were produced by the writer from a
selected page list (as opposed to the raw-file fallback). -/
def PdfBytes.isFromPages : PdfBytes → Bool
  | .fromPages _ => true
  | .rawFile _ => false

/-- The page-selection loop of `combine_pdf_pages`: for each requested
1-indexed page number, convert to a 0-indexed position and add the page
when the position is in bounds, silently skipping it otherwise. -/
def selectPages (pages : List Nat) (page_numbers : List Int) : List Nat :=
  page_numbers.filterMap (fun page_num =>
    let page_index := page_num - 1
    if 0 ≤ page_index ∧ page_index < (pages.length : Int) then
      pages.get? page_index.toNat
    else
      none)

/-- Shallow embedding of `combine_pdf_pages`.  `pypdfAvailable` models
the `PdfReader is None or PdfWriter is None` import-fallback guard; when
it is false, or when reading raises (`parsed = none`), the function
returns the source file's raw bytes instead of failing. -/
def combine_pdf_pages (pypdfAvailable : Bool) (file : PdfFile) (page_numbers : List Int) : PdfBytes :=
  if pypdfAvailable = false then
    .rawFile file.content
  else
    match file.parsed with
    | none => .rawFile file.content
    | some pages => .fromPages (selectPages pages page_numbers)

/-- Python `range(a, b)` over integers. -/
def pyRange (a b : Int) : List Int :=
  (List.range (b - a).toNat).map (fun i : Nat => a + (i : Int))

/-- Shallow embedding of `extract_pdf_pages`: combine the inclusive
1-indexed page range `[start_page, end_page]`. -/
def extract_pdf_pages (pypdfAvailable : Bool) (file : PdfFile) (start_page end_page : Int) : PdfBytes :=
  combine_pdf_pages pypdfAvailable file (pyRange start_page (end_page + 1))

/-! ## Document splitter (modules/document_splitter/splitter.py) -/

/-- The `PageInfo` TypedDict: a page number with its clockwise rotation. -/
structure PageInfo where
  PAGE_NO : Int
  ROTATION : Int
deriving DecidableEq

/-- The `ExtractedDocument` TypedDict produced by `_transform_document`.
`DOC_TYPE_CONFIDENCE` defaults to the float `0.0` in the source; floats
are outside the embedding, so the field keeps the raw JSON value when
present and `none` for the absent-and-defaulted case. -/
structure ExtractedDocument where
  DOC_TYPE : PyJson
  DOC_TYPE_CONFIDENCE : Option PyJson
  TOTAL_PAGES : PyJson
  START_PAGE_NO : Int
  END_PAGE_NO : Int
  PAGES_INFO : List PageInfo
  DOC_DATA : List (String × PyJson)

/-- The `ExtractionResult` TypedDict returned by `split_and_save` and
serialized into the archive manifest. -/
structure ExtractionResult where
  source_pdf : String
  total_documents : Nat
  documents : List ExtractedDocument

/-- The local constant `MAX_OUTPUT_FILES = 100` of
`DocumentSplitter.extract_documents`. -/
def MAX_OUTPUT_FILES : Nat := 100

/-- Shallow embedding of `DocumentSplitter.extract_documents`.  The
argument is the cleaned model response after `json.loads`: `.error`
covers an API failure, an empty response and a JSON parse failure (the
latter two raised as `ValueError` by the source; the distinction does
not affect any downstream branch).  A bare JSON object is wrapped into a
one-element list; more than `MAX_OUTPUT_FILES` documents raise
`ValueError` before anything is returned. -/
def extract_documents (response : Except String PyJson) : Except PyExc (List PyJson) :=
  match response with
  | .error e => .error (.valueError ("Invalid JSON response from Gemini: " ++ e))
  | .ok parsed =>
    let documents :=
      match parsed with
      | .arr xs => xs
      | other => [other]
    if MAX_OUTPUT_FILES < documents.length then
      .error (.valueError ("Too many documents returned by AI: " ++ toString documents.length ++ " (max: " ++ toString MAX_OUTPUT_FILES ++ ")"))
    else
      .ok documents

/-- The coercion applied to each rotation entry by
`extract_rotation_info`: a value outside `{0, 90, 180, 270}` is replaced
by `0` (and logged) rather than failing the estimate. -/
def coerceRotation (r : Int) : Int :=
  if r = 0 ∨ r = 90 ∨ r = 180 ∨ r = 270 then r else 0

/-- Shallow embedding of `DocumentSplitter.extract_rotation_info`.  The
argument is the cleaned rotation response as a list of
`(PAGE_NO, ROTATION)` integer pairs; `.error` covers an API failure, an
empty response and a JSON parse failure.  (A response whose entries lack
those integer keys would raise later, in the lookup built by
`split_and_save`, which is outside the claims.) -/
def extract_rotation_info (response : Except String (List (Int × Int))) : Except PyExc (List (Int × Int)) :=
  match response with
  | .error e => .error (.valueError ("Invalid JSON response from Gemini rotation extraction: " ++ e))
  | .ok entries => .ok (entries.map (fun pr => (pr.1, coerceRotation pr.2)))

/-- The `Result` union of `modules/result_types.py`. -/
inductive RResult (α : Type) where
  | success (data : α)
  | failure (error : String)

/-- Shallow embedding of `DocumentSplitter.extract_rotation_info_safe`:
any exception from `extract_rotation_info` becomes an explicit failure
result instead of propagating. -/
def extract_rotation_info_safe (response : Except String (List (Int × Int))) : RResult (List (Int × Int)) :=
  match extract_rotation_info response with
  | .ok rotation_info => .success rotation_info
  | .error e => .failure ("Failed to extract rotation info: " ++ e.message)

/-- The page-to-rotation lookup built by the dict comprehension in
`split_and_save`; a later entry for the same page number overrides an
earlier one, as in a Python dict build. -/
def buildRotationMap (entries : List (Int × Int)) : Int → Option Int :=
  entries.foldl (fun m pr => fun q => if q = pr.1 then some pr.2 else m q) (fun _ => none)

/-- The `common_fields` set of `split_and_save`. -/
def common_fields : List String :=
  [("DOC_TYPE"), ("DOC_TYPE_CONFIDENCE"), ("TOTAL_PAGES"), ("START_PAGE_NO"), ("END_PAGE_NO"), ("PAGES_INFO")]

/-- `doc.get(key, default)` where the source goes on to use the value as
an integer (page numbers).  A present non-integer value would raise
`TypeError` inside `range` in the source; the embedding covers the
integer-or-absent values the contract describes. -/
def pyGetIntD (kvs : List (String × PyJson)) (key : String) (d : Int) : Int :=
  match pyGet kvs key with
  | some (.int n) => n
  | _ => d

/-- Shallow embedding of the pure helper `_create_pages_info`: one
`PageInfo` per page number in `[start_page, end_page]`, with the looked
up rotation, defaulting to `0` for a page absent from the map. -/
def _create_pages_info (start_page end_page : Int) (rotation_map : Int → Option Int) : List PageInfo :=
  (pyRange start_page (end_page + 1)).map (fun page_no =>
    ⟨page_no, (rotation_map page_no).getD 0⟩)

/-- Shallow embedding of the pure helper `_extract_doc_fields`: the
document's key/value pairs outside the common-field set, in dict order. -/
def _extract_doc_fields (doc : List (String × PyJson)) (cf : List String) : List (String × PyJson) :=
  doc.filter (fun kv => !cf.contains kv.1)

/-- Shallow embedding of the pure helper `_transform_document`. -/
def _transform_document (doc : List (String × PyJson)) (rotation_map : Int → Option Int) (cf : List String) : ExtractedDocument :=
  let start_page := pyGetIntD doc ("START_PAGE_NO") 1
  let end_page := pyGetIntD doc ("END_PAGE_NO") 1
  { DOC_TYPE := (pyGet doc ("DOC_TYPE")).getD (PyJson.str ("UNKNOWN"))
    DOC_TYPE_CONFIDENCE := pyGet doc ("DOC_TYPE_CONFIDENCE")
    TOTAL_PAGES := (pyGet doc ("TOTAL_PAGES")).getD (PyJson.int (end_page - start_page + 1))
    START_PAGE_NO := start_page
    END_PAGE_NO := end_page
    PAGES_INFO := _create_pages_info start_page end_page rotation_map
    DOC_DATA := _extract_doc_fields doc cf }

/-- The per-document loop of `split_and_save`, restricted to its results
accumulation (the loop also writes one split PDF per document via
`extract_pdf_pages`, a filesystem effect verified separately through the
`pdf_utils` embedding).  A raw document that is not a JSON object makes
the source's `doc.get` raise `AttributeError` at the first such
element. -/
def transformDocs (rotation_map : Int → Option Int) : List PyJson → Except PyExc (List ExtractedDocument)
  | [] => .ok []
  | d :: ds =>
    match d with
    | .obj kvs =>
      let transformed := _transform_document kvs rotation_map common_fields
      match transformDocs rotation_map ds with
      | .ok rest => .ok (transformed :: rest)
      | .error e => .error e
    | _ => .error (.otherError ("AttributeError: item has no attribute get"))

/-- The `all_rotations` lookup built by `split_and_save`: the page
rotations when the best-effort extraction succeeded, and the empty
lookup (every page defaults to rotation `0`) when it failed. -/
def rotationLookup (rotationResponse : Except String (List (Int × Int))) : Int → Option Int :=
  match extract_rotation_info_safe rotationResponse with
  | .success rotation_data => buildRotationMap rotation_data
  | .failure _ => fun _ => none

/-- Shallow embedding of `DocumentSplitter.split_and_save`: extract the
raw documents, best-effort extract rotations (a failure leaves the
lookup empty), transform each document, and assemble the manifest. -/
def split_and_save (source_pdf : String) (boundaryResponse : Except String PyJson) (rotationResponse : Except String (List (Int × Int))) : Except PyExc ExtractionResult :=
  match extract_documents boundaryResponse with
  | .error e => .error e
  | .ok documents =>
    match transformDocs (rotationLookup rotationResponse) documents with
    | .error e => .error e
    | .ok results =>
      .ok { source_pdf := source_pdf
            total_documents := results.length
            documents := results }

/-! ## Result packaging (modules/utils/zip_utils.py) -/

/-- `pathlib.Path(p).name`: the component after the last slash. -/
def pathName (p : String) : String :=
  (pySplitSlash p).getLastD p

/-- Shallow embedding of `create_results_zip`, as the list of archive
entry names written, in order.  `fs` models `os.path.exists`;
`output_dir` and `zip_filename` only name the archive file itself, not
its entries.  The source writes the pretty-printed results JSON under
the fixed name `extraction_results.json` and then, only when
`results_data` names a `source_pdf` that still exists on disk, that
source file; it never lists `output_dir`, so no split-PDF entry is ever
written. -/
def create_results_zip (fs : String → Bool) (output_dir : String) (results_data : ExtractionResult) (zip_filename : String) : List String :=
  if results_data.source_pdf ≠ "" && fs results_data.source_pdf then
    [("extraction_results.json"), pathName results_data.source_pdf]
  else
    [("extraction_results.json")]

/-! ## Orchestrator (function_app.py)

Each helper of `function_app.py` wraps one external effect and classifies
its failures; the effect results themselves are supplied by a
`PipelineEnv` record, one field per blocking step of the invocation.
The `finally` cleanup of the temporary directory and the logging calls
have no effect on the published messages or the raised exception and are
not modelled. -/

/-- The possible outcomes of the download-and-validate step wrapped by
`download_pdf`: success, a `ValidationError` from `validate_pdf_file`,
or any other exception (network, storage). -/
inductive DLOutcome where
  | ok
  | validationFail (msg : String)
  | networkFail (msg : String)

/-- Shallow embedding of `get_storage_client`: any construction failure
surfaces as `ConfigurationError`. -/
def get_storage_client (init : Except String Unit) : Except PyExc Unit :=
  match init with
  | .ok _ => .ok ()
  | .error e => .error (.configurationError ("Failed to initialize storage client: " ++ e))

/-- Shallow embedding of `get_document_splitter`: any construction
failure surfaces as `ConfigurationError`. -/
def get_document_splitter (init : Except String Unit) : Except PyExc Unit :=
  match init with
  | .ok _ => .ok ()
  | .error e => .error (.configurationError ("Failed to initialize document splitter: " ++ e))

/-- Shallow embedding of `create_secure_temp_dir`: a failure is a
Transient `ProcessingError`. -/
def create_secure_temp_dir (attempt : Except String Unit) : Except PyExc Unit :=
  match attempt with
  | .ok _ => .ok ()
  | .error e => .error (.processingError ("Failed to create temporary directory: " ++ e) .transient)

/-- Shallow embedding of `download_pdf`: a `ValidationError` from the
PDF validation becomes a Permanent `ProcessingError`; any other failure
becomes a Transient one. -/
def download_pdf (outcome : DLOutcome) : Except PyExc Unit :=
  match outcome with
  | .ok => .ok ()
  | .validationFail m => .error (.processingError m .permanent)
  | .networkFail m => .error (.processingError ("Failed to download PDF: " ++ m) .transient)

/-- Shallow embedding of `process_pdf`: run `split_and_save`; a
`ValidationError` becomes a Permanent `ProcessingError`, every other
exception a Transient one.  (The source also applies
`sanitize_error_message`, a regex redaction of credential-shaped
substrings, to the message; no claim depends on redaction and it is not
modelled.) -/
def process_pdf (boundaryResponse : Except String PyJson) (rotationResponse : Except String (List (Int × Int))) (source_pdf : String) : Except PyExc ExtractionResult :=
  match split_and_save source_pdf boundaryResponse rotationResponse with
  | .ok results => .ok results
  | .error (.validationError m) => .error (.processingError m .permanent)
  | .error e => .error (.processingError ("Failed to process PDF: " ++ e.message) .transient)

/-- Shallow embedding of `package_results`: any failure while building
the archive is a Transient `ProcessingError`. -/
def package_results (attempt : Except String Unit) : Except PyExc Unit :=
  match attempt with
  | .ok _ => .ok ()
  | .error e => .error (.processingError ("Failed to create results ZIP: " ++ e) .transient)

/-- Shallow embedding of `upload_results`: any failure is a Transient
`ProcessingError`; success yields the uploaded blob URL. -/
def upload_results (attempt : Except String String) : Except PyExc String :=
  match attempt with
  | .ok url => .ok url
  | .error e => .error (.processingError ("Failed to upload results: " ++ e) .transient)

/-- The results of the external effects of one worker invocation, in the
order `process_pdf_file` performs them.  `messageJson` is the decoded
body of the inbound queue message; `allowedContainers` is the value the
source passes to `ValidatedRequest.from_queue_message`
(`config.storage.input_container`, a string, in production); `urlparse`
is the standard library URL parser. -/
structure PipelineEnv where
  storageInit : Except String Unit
  splitterInit : Except String Unit
  messageJson : Except String PyJson
  allowedContainers : PyVal
  urlparse : String → Url
  tempDir : Except String Unit
  download : DLOutcome
  boundaryResponse : Except String PyJson
  rotationResponse : Except String (List (Int × Int))
  packageOutcome : Except String Unit
  uploadOutcome : Except String String

/-- The `try` body of `process_pdf_file`, as the correlation key known at
exit (initially the literal `UNKNOWN`) together with either the uploaded
results URL or the first exception raised.  The placeholder source-pdf
path stands for the per-invocation temporary file name. -/
def tryBody (env : PipelineEnv) : String × Except PyExc String :=
  match get_storage_client env.storageInit with
  | .error e => ("UNKNOWN", .error e)
  | .ok _ =>
  match get_document_splitter env.splitterInit with
  | .error e => ("UNKNOWN", .error e)
  | .ok _ =>
  match from_queue_message env.messageJson env.allowedContainers env.urlparse with
  | .error e => ("UNKNOWN", .error e)
  | .ok validated_request =>
  let correlation_key := validated_request.correlation_key
  match create_secure_temp_dir env.tempDir with
  | .error e => (correlation_key, .error e)
  | .ok _ =>
  match download_pdf env.download with
  | .error e => (correlation_key, .error e)
  | .ok _ =>
  match process_pdf env.boundaryResponse env.rotationResponse ("input.pdf") with
  | .error e => (correlation_key, .error e)
  | .ok _ =>
  match package_results env.packageOutcome with
  | .error e => (correlation_key, .error e)
  | .ok _ =>
  match upload_results env.uploadOutcome with
  | .error e => (correlation_key, .error e)
  | .ok zip_url => (correlation_key, .ok zip_url)

/-- A message published on the results queue by `send_success_result` or
`send_error_result`.  (`send_error_result` additionally redacts the
message text via `sanitize_error_message`; no claim depends on the
redaction.) -/
inductive OutcomeMsg where
  | success (correlationKey : String) (resultsBlobUrl : String)
  | failure (correlationKey : String) (errorMessage : String)
deriving DecidableEq

/-- The `except` chain of `process_pdf_file`: for each caught exception,
the failure message sent and whether the exception is re-raised to the
host (requesting redelivery or alerting). -/
def exceptDispatch (correlation_key : String) (e : PyExc) : List OutcomeMsg × Option PyExc :=
  match e with
  | .configurationError m => ([.failure correlation_key m], some e)
  | .validationError m => ([.failure correlation_key m], none)
  | .processingError m severity =>
    match severity with
    | .critical => ([.failure correlation_key m], some e)
    | .transient => ([.failure correlation_key m], some e)
    | .permanent => ([.failure correlation_key m], none)
  | .valueError m => ([.failure correlation_key m], some e)
  | .otherError m => ([.failure correlation_key m], some e)

/-- Shallow embedding of the queue-triggered `process_pdf_file`: the
list of messages published on the output queue, in order, and the
exception re-raised to the host, if any. -/
def process_pdf_file (env : PipelineEnv) : List OutcomeMsg × Option PyExc :=
  match tryBody env with
  | (correlation_key, .ok zip_url) => ([.success correlation_key zip_url], none)
  | (correlation_key, .error e) => exceptDispatch correlation_key e

/-! ## Helper lemmas -/

lemma splitChar_eq_single (sep : Char) (l : List Char) (h : ∀ c ∈ l, c ≠ sep) :
    splitChar sep l = [l] := by
  induction l with
  | nil => rfl
  | cons c cs ih =>
    have hc : c ≠ sep := h c (List.mem_cons_self c cs)
    have ih' := ih (fun d hd => h d (List.mem_cons_of_mem c hd))
    simp [splitChar, hc, ih']

lemma pattern_props (s : List Char) (h : correlationKeyPattern s = true) :
    s ≠ [] ∧ s ≠ ['.'] ∧ ∀ c ∈ s, c ≠ '/' := by
  unfold correlationKeyPattern correlationKeyCore at h
  rw [Bool.or_eq_true] at h
  rcases h with h | h
  · rw [Bool.and_eq_true, Bool.and_eq_true] at h
    obtain ⟨⟨h1, _⟩, h3⟩ := h
    have hlen : 1 ≤ s.length := of_decide_eq_true h1
    have hne : s ≠ [] := by
      intro he
      rw [he] at hlen
      simp at hlen
    refine ⟨hne, ?_, ?_⟩
    · intro he
      rw [he] at h3
      exact absurd h3 (by decide)
    · intro c hc hce
      have hall := List.all_eq_true.1 h3 c hc
      rw [hce] at hall
      exact absurd hall (by decide)
  · rw [Bool.and_eq_true] at h
    obtain ⟨h1, h2⟩ := h
    have hlast : s.getLast? = some '\n' := of_decide_eq_true h1
    have hne : s ≠ [] := by
      intro he
      rw [he] at hlast
      simp at hlast
    rw [Bool.and_eq_true, Bool.and_eq_true] at h2
    obtain ⟨⟨_, _⟩, h23⟩ := h2
    refine ⟨hne, ?_, ?_⟩
    · intro he
      rw [he] at hlast
      exact absurd hlast (by decide)
    · intro c hc hce
      have hsplit := List.dropLast_append_getLast hne
      have hlasteq : s.getLast hne = '\n' := by
        have hg := List.getLast?_eq_getLast s hne
        rw [hg] at hlast
        exact Option.some.inj hlast
      rw [← hsplit] at hc
      rcases List.mem_append.1 hc with hmem | hmem
      · have hall := List.all_eq_true.1 h23 c hmem
        rw [hce] at hall
        exact absurd hall (by decide)
      · rw [List.mem_singleton] at hmem
        subst hce
        rw [hlasteq] at hmem
        exact absurd hmem (by decide)

lemma intercalate_single (x : List Char) : List.intercalate ['/'] [x] = x := by
  simp [List.intercalate, List.intersperse]

lemma toList_isEmpty_false (key : String) (hne : key.toList ≠ []) :
    key.toList.isEmpty = false := by
  rcases hk : key.toList with _ | ⟨a, t⟩
  · exact absurd hk hne
  · rfl

lemma posixParts_pattern (key : String) (h : correlationKeyPattern key.toList = true) :
    posixParts key = [key.toList] := by
  obtain ⟨hne, hdot, hsl⟩ := pattern_props key.toList h
  have h1 : key.toList.isEmpty = false := toList_isEmpty_false key hne
  have h2 : (key.toList != ['.']) = true := bne_iff_ne.2 hdot
  have hcond : (!key.toList.isEmpty && (key.toList != ['.'])) = true := by
    rw [h1, h2]
    rfl
  unfold posixParts
  rw [splitChar_eq_single '/' key.toList hsl, List.filter_cons, if_pos hcond]
  rfl

lemma posixStr_pattern (key : String) (h : correlationKeyPattern key.toList = true) :
    posixStr key = key.toList := by
  obtain ⟨hne, _, hsl⟩ := pattern_props key.toList h
  have hhead : ¬ key.toList.head? = some '/' := by
    intro hh
    have hmem : '/' ∈ key.toList := List.mem_of_mem_head? (Option.mem_def.2 hh)
    exact hsl '/' hmem rfl
  have h1 : ¬ (key.toList.isEmpty = true) := by
    rw [toList_isEmpty_false key hne]
    exact Bool.false_ne_true
  unfold posixStr
  rw [posixParts_pattern key h, intercalate_single]
  rw [if_neg hhead, if_neg h1]

lemma validate_correlation_key_ok (key : String) (h : correlationKeyPattern key.toList = true) :
    validate_correlation_key key = .ok key := by
  obtain ⟨hne, _, _⟩ := pattern_props key.toList h
  have hk : ¬ key = "" := by
    intro he
    apply hne
    rw [he]
    rfl
  unfold validate_correlation_key
  rw [if_neg hk]
  rw [h]
  simp only [Bool.not_true, Bool.false_eq_true, if_false]
  rw [posixParts_pattern key h, posixStr_pattern key h]
  simp

/-! ## Claim C5 -/

/-- C5 (corrected): every key matching the alphabet
`^[A-Za-z0-9_-]{1,128}$` is returned unchanged by
`validate_correlation_key`; every key whose characters fail Python's
regex match is rejected with a `ValidationError`; and — the correction —
a key consisting of a matching 1–128-character core followed by exactly
one terminal newline is also accepted unchanged, because Python's `$`
anchor matches just before a final newline, so "contains a character
outside the allowed alphabet" does not always imply rejection. -/
theorem c5_validate_correlation_key : ∀ key : String,
    (correlationKeyCore key.toList = true → validate_correlation_key key = .ok key) ∧
    (correlationKeyPattern key.toList = false → isErr (validate_correlation_key key) = true) ∧
    (correlationKeyCore key.toList = true →
      validate_correlation_key (key ++ "\n") = .ok (key ++ "\n")) := by
  intro key
  refine ⟨?_, ?_, ?_⟩
  · intro h
    exact validate_correlation_key_ok key (by rw [correlationKeyPattern, h]; rfl)
  · intro h
    unfold validate_correlation_key
    by_cases hk : key = ""
    · rw [if_pos hk]
      rfl
    · rw [if_neg hk, h]
      rfl
  · intro h
    apply validate_correlation_key_ok
    rw [correlationKeyPattern]
    have htl : (key ++ "\n").toList = key.toList ++ ['\n'] := by
      show (key ++ "\n").data = key.data ++ ['\n']
      rw [String.data_append]
    rw [htl]
    have h1 : (key.toList ++ ['\n']).getLast? = some '\n' := List.getLast?_concat key.toList
    have h2 : (key.toList ++ ['\n']).dropLast = key.toList := List.dropLast_concat
    rw [h1, h2, h]
    simp

/-- C5 counterexample: the key `"abc\n"` contains a newline, a character
outside the allowed alphabet, yet `validate_correlation_key` returns it
unchanged instead of failing (Python's `$` matches before the final
newline, and `PurePosixPath` leaves the newline intact). -/
theorem c5_counterexample :
    validate_correlation_key ("abc\n") = .ok ("abc\n") ∧ allowedKeyChar '\n' = false := by
  exact ⟨rfl, rfl⟩

/-- C5 witness: the amended theorem applied at `"abc123"` (accepted),
`"a b"` (rejected) and `"xy" ++ "\n"` (the newline quirk). -/
theorem c5_validate_correlation_key_witness :
    validate_correlation_key ("abc123") = .ok ("abc123") ∧
    isErr (validate_correlation_key ("a b")) = true ∧
    validate_correlation_key ("xy" ++ "\n") = .ok ("xy" ++ "\n") := by
  refine ⟨(c5_validate_correlation_key ("abc123")).1 (by decide),
    (c5_validate_correlation_key ("a b")).2.1 (by decide),
    (c5_validate_correlation_key ("xy")).2.2 (by decide)⟩

/-! ## Claim C6 -/

/-- The URL of the C6 counterexample: HTTPS, allowed storage domain, and
a path whose only segment names the allowed container. -/
def c6Url : String := "https://acct.blob.core.windows.net/docs"

/-- `urllib.parse.urlparse` restricted to the C6 counterexample URL
(these are the exact components the Python parser returns for it). -/
def c6Parse : String → Url := fun s =>
  if s = c6Url then ⟨"https", some ("acct.blob.core.windows.net"), "/docs"⟩
  else ⟨"", none, ""⟩

/-- C6 counterexample: `https://acct.blob.core.windows.net/docs` uses
HTTPS, is 39 ≤ 2048 characters long, its host ends with the allowed
storage-domain suffix, and its first path segment equals the allowed
container `docs`; the claim says such a URL is returned unchanged, but
`validate_blob_url` rejects it because the path has fewer than two
segments (container plus blob name). -/
theorem c6_counterexample :
    (c6Parse c6Url).scheme = "https" ∧
    c6Url.length ≤ 2048 ∧
    (c6Parse c6Url).hostname = some ("acct.blob.core.windows.net") ∧
    strEndsWith ("acct.blob.core.windows.net") (".blob.core.windows.net") = true ∧
    (pySplitSlash (stripSlashes (c6Parse c6Url).path)).headD ("") = "docs" ∧
    validate_blob_url c6Url c6Parse (.pystr ("docs")) =
      .error (.validationError ("Invalid blob URL path format: /docs")) := by
  refine ⟨rfl, by decide, rfl, by decide, by decide, rfl⟩

/-- C6 (corrected): `validate_blob_url` rejects every URL that is not
HTTPS, or longer than 2048 characters, or whose host does not end with
the allowed object-storage domain suffix, or whose first path segment is
not the allowed container; but a URL satisfying all those checks is
returned unchanged only when, in addition, it is nonempty, its hostname
is present and nonempty, and its path holds at least two segments
(container plus blob name) — otherwise it is also rejected. -/
theorem c6_validate_blob_url : ∀ (url : String) (parse : String → Url) (allowed : String),
    (2048 < url.length → isErr (validate_blob_url url parse (.pystr allowed)) = true) ∧
    ((parse url).scheme ≠ "https" → isErr (validate_blob_url url parse (.pystr allowed)) = true) ∧
    ((ALLOWED_BLOB_DOMAINS.any (fun domain =>
        strEndsWith ((parse url).hostname.getD ("")) domain)) = false →
      isErr (validate_blob_url url parse (.pystr allowed)) = true) ∧
    (pyStrEq ((pySplitSlash (stripSlashes (parse url).path)).headD ("")) (.pystr allowed) = false →
      isErr (validate_blob_url url parse (.pystr allowed)) = true) ∧
    (url ≠ "" → url.length ≤ 2048 → (parse url).scheme = "https" →
      (parse url).hostname.getD ("") ≠ "" →
      (ALLOWED_BLOB_DOMAINS.any (fun domain =>
        strEndsWith ((parse url).hostname.getD ("")) domain)) = true →
      2 ≤ (pySplitSlash (stripSlashes (parse url).path)).length →
      (pySplitSlash (stripSlashes (parse url).path)).headD ("") = allowed →
      validate_blob_url url parse (.pystr allowed) = .ok url) := by
  intro url parse allowed
  refine ⟨?_, ?_, ?_, ?_, ?_⟩
  · intro hlong
    have hne : ¬ url = "" := by
      intro he
      rw [he] at hlong
      exact absurd hlong (by decide)
    unfold validate_blob_url
    rw [if_neg hne, if_pos hlong]
    rfl
  · intro hscheme
    unfold validate_blob_url
    by_cases h0 : url = ""
    · rw [if_pos h0]
      rfl
    · rw [if_neg h0]
      by_cases h1 : 2048 < url.length
      · rw [if_pos h1]
        rfl
      · rw [if_neg h1, if_pos hscheme]
        rfl
  · intro hdom
    unfold validate_blob_url
    by_cases h0 : url = ""
    · rw [if_pos h0]
      rfl
    · rw [if_neg h0]
      by_cases h1 : 2048 < url.length
      · rw [if_pos h1]
        rfl
      · rw [if_neg h1]
        by_cases h2 : (parse url).scheme ≠ "https"
        · rw [if_pos h2]
          rfl
        · rw [if_neg h2]
          by_cases h3 : (parse url).hostname.getD ("") = ""
          · rw [if_pos h3]
            rfl
          · rw [if_neg h3, hdom]
            rfl
  · intro hcont
    unfold validate_blob_url
    by_cases h0 : url = ""
    · rw [if_pos h0]
      rfl
    · rw [if_neg h0]
      by_cases h1 : 2048 < url.length
      · rw [if_pos h1]
        rfl
      · rw [if_neg h1]
        by_cases h2 : (parse url).scheme ≠ "https"
        · rw [if_pos h2]
          rfl
        · rw [if_neg h2]
          by_cases h3 : (parse url).hostname.getD ("") = ""
          · rw [if_pos h3]
            rfl
          · rw [if_neg h3]
            by_cases h4 : (ALLOWED_BLOB_DOMAINS.any (fun domain =>
                strEndsWith ((parse url).hostname.getD ("")) domain)) = true
            · rw [h4]
              simp only [Bool.not_true, Bool.false_eq_true, if_false]
              by_cases h5 : (pySplitSlash (stripSlashes (parse url).path)).length < 2
              · rw [if_pos h5]
                rfl
              · rw [if_neg h5, hcont]
                rfl
            · rw [Bool.not_eq_true] at h4
              rw [h4]
              rfl
  · intro h0 h1 h2 h3 h4 h5 h6
    unfold validate_blob_url
    rw [if_neg h0, if_neg (by omega : ¬ 2048 < url.length)]
    rw [if_neg (fun hc => hc h2), if_neg h3, h4]
    simp only [Bool.not_true, Bool.false_eq_true, if_false]
    rw [if_neg (by omega : ¬ (pySplitSlash (stripSlashes (parse url).path)).length < 2)]
    rw [h6]
    simp [pyStrEq]

/-- C6 witness: the amended theorem applied at a complete valid URL
(accepted unchanged) and at an HTTP URL (rejected). -/
theorem c6_validate_blob_url_witness :
    validate_blob_url ("https://acct.blob.core.windows.net/inbox/doc.pdf")
      (fun _ => ⟨"https", some ("acct.blob.core.windows.net"), "/inbox/doc.pdf"⟩)
      (.pystr ("inbox")) = .ok ("https://acct.blob.core.windows.net/inbox/doc.pdf") ∧
    isErr (validate_blob_url ("http://x/y/z") (fun _ => ⟨"http", some ("x"), "/y/z"⟩)
      (.pystr ("y"))) = true := by
  constructor
  · exact (c6_validate_blob_url ("https://acct.blob.core.windows.net/inbox/doc.pdf")
      (fun _ => ⟨"https", some ("acct.blob.core.windows.net"), "/inbox/doc.pdf"⟩)
      ("inbox")).2.2.2.2 (by decide) (by decide) rfl (by decide) (by decide) (by decide)
      (by decide)
  · exact (c6_validate_blob_url ("http://x/y/z") (fun _ => ⟨"http", some ("x"), "/y/z"⟩)
      ("y")).2.1 (by decide)

/-! ## Claim C10 -/

lemma validate_correlation_key_error_shape (key : String) (e : PyExc)
    (h : validate_correlation_key key = .error e) : ∃ m, e = .validationError m := by
  unfold validate_correlation_key at h
  repeat' split at h
  · exact ⟨_, (Except.error.inj h).symm⟩
  · exact ⟨_, (Except.error.inj h).symm⟩
  · exact ⟨_, (Except.error.inj h).symm⟩
  · exact Except.noConfusion h

lemma validate_blob_url_pylist (url : String) (parse : String → Url) (cs : List String) :
    ∃ m, validate_blob_url url parse (.pylist cs) = .error (.validationError m) := by
  unfold validate_blob_url
  by_cases h0 : url = ""
  · rw [if_pos h0]
    exact ⟨_, rfl⟩
  · rw [if_neg h0]
    by_cases h1 : 2048 < url.length
    · rw [if_pos h1]
      exact ⟨_, rfl⟩
    · rw [if_neg h1]
      by_cases h2 : (parse url).scheme ≠ "https"
      · rw [if_pos h2]
        exact ⟨_, rfl⟩
      · rw [if_neg h2]
        by_cases h3 : (parse url).hostname.getD ("") = ""
        · rw [if_pos h3]
          exact ⟨_, rfl⟩
        · rw [if_neg h3]
          by_cases h4 : (ALLOWED_BLOB_DOMAINS.any (fun domain =>
              strEndsWith ((parse url).hostname.getD ("")) domain)) = true
          · rw [h4]
            simp only [Bool.not_true, Bool.false_eq_true, if_false]
            by_cases h5 : (pySplitSlash (stripSlashes (parse url).path)).length < 2
            · rw [if_pos h5]
              exact ⟨_, rfl⟩
            · rw [if_neg h5]
              exact ⟨_, rfl⟩
          · rw [Bool.not_eq_true] at h4
            rw [h4]
            exact ⟨_, rfl⟩

lemma parse_queue_message_shape (d : Except String PyJson) :
    (∃ m, parse_queue_message d = .error (.validationError m)) ∨
    (∃ r, parse_queue_message d = .ok r) := by
  unfold parse_queue_message
  rcases d with e | j
  · exact .inl ⟨_, rfl⟩
  · rcases j with _ | b | n | s | xs | kvs <;> try exact .inl ⟨_, rfl⟩
    rcases hck : pyOrGet (pyGet kvs ("correlationKey")) (pyGet kvs ("correlation_key")) with _ | ck
    · simp only [hck]
      exact .inl ⟨_, rfl⟩
    · simp only [hck]
      by_cases ht : ck.isTruthy = true
      · simp only [ht, Bool.not_true, Bool.false_eq_true, if_false]
        rcases hurl : pyOrGet (pyGet kvs ("pdfBlobUrl")) (pyGet kvs ("pdf_blob_url")) with _ | url
        · simp only [hurl]
          exact .inl ⟨_, rfl⟩
        · simp only [hurl]
          by_cases hu : url.isTruthy = true
          · simp only [hu, Bool.not_true, Bool.false_eq_true, if_false]
            rcases ck with _ | b1 | n1 | cks | xs1 | kvs1 <;> try exact .inl ⟨_, rfl⟩
            rcases url with _ | b2 | n2 | urls | xs2 | kvs2 <;> try exact .inl ⟨_, rfl⟩
            exact .inr ⟨_, rfl⟩
          · rw [Bool.not_eq_true] at hu
            simp only [hu]
            exact .inl ⟨_, rfl⟩
      · rw [Bool.not_eq_true] at ht
        simp only [ht]
        exact .inl ⟨_, rfl⟩

/-- C10 (confirmed): when `ValidatedRequest.from_queue_message` receives
a list of allowed container names, as its declared signature states, no
message can ever validate: every invocation fails with a
`ValidationError` — if parsing and the correlation-key check pass, the
URL's container segment is compared by `==` against the list object
itself, which is always false in Python, so `validate_blob_url` rejects
every URL (this subsumes, in particular, every well-formed message whose
URL passes the scheme, length and domain checks). -/
theorem c10_from_queue_message_list :
    ∀ (decoded : Except String PyJson) (urlparse : String → Url) (cs : List String),
      ∃ m, from_queue_message decoded (.pylist cs) urlparse = .error (.validationError m) := by
  intro decoded urlparse cs
  unfold from_queue_message
  rcases parse_queue_message_shape decoded with ⟨m, hm⟩ | ⟨r, hr⟩
  · simp only [hm]
    exact ⟨m, rfl⟩
  · simp only [hr]
    rcases hvk : validate_correlation_key r.correlationKey with e | ck
    · obtain ⟨m, hme⟩ := validate_correlation_key_error_shape r.correlationKey e hvk
      subst hme
      simp only [hvk]
      exact ⟨m, rfl⟩
    · obtain ⟨m, hbu⟩ := validate_blob_url_pylist r.pdfBlobUrl urlparse cs
      simp only [hvk, hbu]
      exact ⟨m, rfl⟩

/-! ## Claims C7 and C8 -/

/-- The pages the splitter is asked for that actually exist, in request
order: the in-bounds page numbers of the request, each resolved to its
page (this is the specification-side description of the selection
loop). -/
def requestedExistingPages (pages : List Nat) (nums : List Int) : List Nat :=
  (nums.filter (fun n => decide (1 ≤ n) && decide (n ≤ (pages.length : Int)))).map
    (fun n => pages.getD (n - 1).toNat 0)

lemma selectPages_eq (pages : List Nat) (nums : List Int) :
    selectPages pages nums = requestedExistingPages pages nums := by
  induction nums with
  | nil => rfl
  | cons n ns ih =>
    unfold requestedExistingPages at ih ⊢
    simp only [selectPages, List.filterMap_cons, List.filter_cons] at ih ⊢
    by_cases hc : 1 ≤ n ∧ n ≤ (pages.length : Int)
    · have hcond : 0 ≤ n - 1 ∧ n - 1 < (pages.length : Int) := by omega
      have hidx : (n - 1).toNat < pages.length := by omega
      have hbool : (decide (1 ≤ n) && decide (n ≤ (pages.length : Int))) = true := by
        simp [hc.1, hc.2]
      rw [if_pos hcond, List.get?_eq_get hidx, hbool, if_pos rfl, List.map_cons]
      have hgd : pages.getD (n - 1).toNat 0 = pages.get ⟨(n - 1).toNat, hidx⟩ := by
        rw [List.getD_eq_get?, List.get?_eq_get hidx]
        rfl
      rw [hgd, ih]
    · have hcond : ¬ (0 ≤ n - 1 ∧ n - 1 < (pages.length : Int)) := by omega
      have hbool : (decide (1 ≤ n) && decide (n ≤ (pages.length : Int))) = false := by
        rcases not_and_or.1 hc with h | h <;> simp [h]
      rw [if_neg hcond, hbool]
      simp only [Bool.false_eq_true, if_false]
      exact ih

lemma getD_map_range (ps : List Nat) :
    (List.range ps.length).map (fun i => ps.getD i 0) = ps := by
  induction ps with
  | nil => rfl
  | cons a t ih =>
    rw [List.length_cons, List.range_succ_eq_map, List.map_cons, List.map_map]
    have hcomp : ((fun i => (a :: t).getD i 0) ∘ Nat.succ) = (fun i => t.getD i 0) := by
      funext i
      rfl
    rw [hcomp, ih]
    rfl

lemma requestedExistingPages_full (ps : List Nat) :
    requestedExistingPages ps (pyRange 1 ((ps.length : Int) + 1)) = ps := by
  unfold requestedExistingPages pyRange
  have h1 : (((ps.length : Int) + 1) - 1).toNat = ps.length := by omega
  rw [h1]
  have hfil : ((List.range ps.length).map (fun i : Nat => (1 : Int) + (i : Int))).filter
      (fun n => decide (1 ≤ n) && decide (n ≤ (ps.length : Int))) =
      (List.range ps.length).map (fun i : Nat => (1 : Int) + (i : Int)) := by
    rw [List.filter_eq_self]
    intro n hn
    obtain ⟨i, hi, rfl⟩ := List.mem_map.1 hn
    have hilt : i < ps.length := List.mem_range.1 hi
    have hb1 : (1 : Int) ≤ 1 + (i : Int) := by omega
    have hb2 : (1 : Int) + (i : Int) ≤ (ps.length : Int) := by omega
    simp [hb1, hb2]
  rw [hfil, List.map_map]
  have hcong : ∀ i ∈ List.range ps.length,
      ((fun n : Int => ps.getD (n - 1).toNat 0) ∘ (fun i : Nat => (1 : Int) + (i : Int))) i =
        ps.getD i 0 := by
    intro i hi
    have hidx : (((1 : Int) + (i : Int)) - 1).toNat = i := by omega
    simp only [Function.comp]
    rw [hidx]
  rw [List.map_congr_left hcong, getD_map_range]

lemma selectPages_full (ps : List Nat) :
    selectPages ps (pyRange 1 ((ps.length : Int) + 1)) = ps := by
  rw [selectPages_eq, requestedExistingPages_full]

/-- C8 (confirmed): for a readable source PDF, splitting on the
inclusive 1-indexed range `[start_page, end_page]` yields a document
built from exactly the in-bounds pages of that range, in order; in
particular, splitting on the full range `[1, N]` reproduces all `N`
pages in the original order. -/
theorem c8_round_trip : ∀ (file : PdfFile) (pages : List Nat), file.parsed = some pages →
    (∀ start_page end_page : Int,
      extract_pdf_pages true file start_page end_page =
        .fromPages (requestedExistingPages pages (pyRange start_page (end_page + 1)))) ∧
    extract_pdf_pages true file 1 (pages.length : Int) = .fromPages pages := by
  intro file pages hp
  constructor
  · intro s e
    unfold extract_pdf_pages combine_pdf_pages
    simp only [hp, selectPages_eq]
    rfl
  · unfold extract_pdf_pages combine_pdf_pages
    simp only [hp, selectPages_full]
    rfl

/-- C8 witness: a three-page document split on its full range `[1, 3]`
reproduces the three pages in order. -/
theorem c8_round_trip_witness :
    extract_pdf_pages true ⟨[9, 9], some [3, 4, 5]⟩ 1 3 = .fromPages [3, 4, 5] := by
  have h := (c8_round_trip ⟨[9, 9], some [3, 4, 5]⟩ [3, 4, 5] rfl).2
  exact h

/-- The C7 counterexample file: its raw bytes are readable, but
`PdfReader` raises on it (`parsed = none`). -/
def c7file : PdfFile := ⟨[7, 7, 7], none⟩

/-- C7 counterexample: when reading the source PDF raises,
`combine_pdf_pages` does not fail with a typed error — it silently
returns the raw source file bytes, which are not a document built by the
writer from the requested page. -/
theorem c7_counterexample :
    combine_pdf_pages true c7file [1] = .rawFile [7, 7, 7] ∧
    (combine_pdf_pages true c7file [1]).isFromPages = false := ⟨rfl, rfl⟩

/-- C7 (corrected): on any failure — `pypdf` unavailable at import time,
or any exception while reading, selecting or writing pages —
`combine_pdf_pages` silently returns the source file's raw bytes
unchanged instead of failing with a typed error; only on success does it
return a document built from exactly the requested existing pages, in
request order. -/
theorem c7_combine_fallback : ∀ (pypdfAvailable : Bool) (file : PdfFile) (nums : List Int),
    (pypdfAvailable = false ∨ file.parsed = none →
      combine_pdf_pages pypdfAvailable file nums = .rawFile file.content) ∧
    (∀ pages, file.parsed = some pages → pypdfAvailable = true →
      combine_pdf_pages pypdfAvailable file nums =
        .fromPages (requestedExistingPages pages nums)) := by
  intro avail file nums
  constructor
  · intro h
    rcases h with h | h
    · subst h
      rfl
    · by_cases ha : avail = false
      · subst ha
        rfl
      · unfold combine_pdf_pages
        rw [if_neg ha]
        simp only [h]
  · intro pages hp htrue
    subst htrue
    unfold combine_pdf_pages
    simp only [hp, selectPages_eq]
    rfl

/-- C7 witness: the amended theorem applied on the success path (pages 0
and 99 do not exist and are skipped; page 2 resolves to its content) and
on the import-fallback path. -/
theorem c7_combine_fallback_witness :
    combine_pdf_pages true ⟨[9], some [5, 6]⟩ [0, 2, 99] = .fromPages [6] ∧
    combine_pdf_pages false ⟨[9], some [5, 6]⟩ [0, 2, 99] = .rawFile [9] := by
  constructor
  · exact (c7_combine_fallback true ⟨[9], some [5, 6]⟩ [0, 2, 99]).2 [5, 6] rfl rfl
  · exact (c7_combine_fallback false ⟨[9], some [5, 6]⟩ [0, 2, 99]).1 (Or.inl rfl)

/-! ## Claim C1 -/

/-- A sample transformed sub-document for the C1 evaluation. -/
def c1_doc : ExtractedDocument :=
  { DOC_TYPE := .str ("INVOICE")
    DOC_TYPE_CONFIDENCE := none
    TOTAL_PAGES := .int 2
    START_PAGE_NO := 1
    END_PAGE_NO := 2
    PAGES_INFO := []
    DOC_DATA := [] }

/-- A processing result recording two split sub-documents, as in the
repo's own `test_zip_utils.py` fixture (whose `source_pdf` path does not
exist on disk). -/
def c1_results : ExtractionResult :=
  { source_pdf := "/original/input.pdf"
    total_documents := 2
    documents := [c1_doc, c1_doc] }

/-- The filesystem at packaging time: the two split PDFs are present in
the output directory; the recorded original source path is not. -/
def c1_fs : String → Bool := fun p => p != ("/original/input.pdf")

/-- C1 (code_bug): with two split sub-documents recorded in the results
and their files present in the output directory, the archive holds a
single entry — the manifest — and no entry per split artifact; this
contradicts the claim, the function's own docstring ("containing all
split PDFs and results JSON") and the repo's unit test
`test_zip_contains_pdf_files`.  The half of the claim that does hold is
also proved: the manifest entry is present in every archive, for every
results value, including an empty `documents` list. -/
theorem c1_create_results_zip_eval :
    create_results_zip c1_fs ("/tmp/out") c1_results ("abc123_results.zip") =
      [("extraction_results.json")] ∧
    c1_results.documents.length = 2 ∧
    c1_fs ("/tmp/out/doc_INVOICE_1_pages_1-2.pdf") = true ∧
    ("doc_INVOICE_1_pages_1-2.pdf") ∉
      create_results_zip c1_fs ("/tmp/out") c1_results ("abc123_results.zip") ∧
    ∀ (fs : String → Bool) (output_dir : String) (results : ExtractionResult)
      (zip_filename : String),
      ("extraction_results.json") ∈ create_results_zip fs output_dir results zip_filename := by
  refine ⟨rfl, rfl, by decide, by decide, ?_⟩
  intro fs output_dir results zip_filename
  unfold create_results_zip
  by_cases hc : (results.source_pdf ≠ "" && fs results.source_pdf) = true
  · rw [if_pos hc]
    exact List.mem_cons_self _ _
  · rw [if_neg hc]
    exact List.mem_cons_self _ _

/-! ## Concrete pipeline environments -/

/-- The source blob URL used by the concrete environments. -/
def goodUrl : String := "https://acct.blob.core.windows.net/inbox/doc.pdf"

/-- `urllib.parse.urlparse` restricted to `goodUrl` (the components the
Python parser returns for it). -/
def goodParse : String → Url := fun s =>
  if s = goodUrl then ⟨"https", some ("acct.blob.core.windows.net"), "/inbox/doc.pdf"⟩
  else ⟨"", none, ""⟩

/-- A well-formed inbound queue message. -/
def goodMessage : PyJson :=
  .obj [("correlationKey", .str ("abc123")), ("pdfBlobUrl", .str goodUrl)]

/-- The raw descriptor list of the sample boundary-extraction response:
one INVOICE descriptor spanning pages 1–2. -/
def goodBoundaryDocs : List PyJson :=
  [.obj [("DOC_TYPE", .str ("INVOICE")), ("DOC_TYPE_CONFIDENCE", .int 1),
    ("TOTAL_PAGES", .int 2), ("START_PAGE_NO", .int 1), ("END_PAGE_NO", .int 2),
    ("INVOICE_NO", .str ("0004833/E"))]]

/-- A boundary-extraction response with one INVOICE descriptor spanning
pages 1–2. -/
def goodBoundary : PyJson := .arr goodBoundaryDocs

/-- An environment in which every external step succeeds. -/
def goodEnv : PipelineEnv :=
  { storageInit := .ok ()
    splitterInit := .ok ()
    messageJson := .ok goodMessage
    allowedContainers := .pystr ("inbox")
    urlparse := goodParse
    tempDir := .ok ()
    download := .ok
    boundaryResponse := .ok goodBoundary
    rotationResponse := .ok [(1, 0), (2, 90)]
    packageOutcome := .ok ()
    uploadOutcome := .ok ("https://acct.blob.core.windows.net/results/abc123_results.zip") }

/-- `goodEnv` with a network failure during the PDF download. -/
def envT : PipelineEnv := { goodEnv with download := .networkFail ("boom") }

/-- `goodEnv` with a broken storage-client configuration. -/
def envC : PipelineEnv := { goodEnv with storageInit := .error ("nope") }

/-- `goodEnv` with a boundary response of 101 empty descriptors. -/
def env101 : PipelineEnv :=
  { goodEnv with boundaryResponse := .ok (.arr (List.replicate 101 (.obj []))) }

/-! ## Claims C2 and C3 -/

lemma exceptDispatch_one (correlation_key : String) (e : PyExc) :
    ((exceptDispatch correlation_key e).1).length = 1 := by
  cases e with
  | configurationError m => rfl
  | validationError m => rfl
  | processingError m severity => cases severity <;> rfl
  | valueError m => rfl
  | otherError m => rfl

/-- C2 (confirmed): for every inbound queue message and every
combination of step outcomes — success, validation failure, permanent,
transient, critical and unclassified errors, including partial failure
where a later step fails after earlier steps succeeded — the worker
invocation publishes exactly one Outcome message on the output queue:
never zero and never two. -/
theorem c2_exactly_one_outcome : ∀ env : PipelineEnv, ((process_pdf_file env).1).length = 1 := by
  intro env
  unfold process_pdf_file
  rcases h : tryBody env with ⟨correlation_key, r⟩
  rcases r with e | zip_url
  · exact exceptDispatch_one correlation_key e
  · rfl

/-- C3 (confirmed): the orchestrator's failure dispatch follows the
three-valued severity: a Permanent `ProcessingError` yields one failure
Outcome and no re-raise; a Transient or Critical `ProcessingError`
yields one failure Outcome and re-raises the error; a
`ConfigurationError` yields one failure Outcome and re-raises. -/
theorem c3_severity_dispatch :
    (∀ (env : PipelineEnv) (correlation_key m : String) (severity : ErrorSeverity),
      tryBody env = (correlation_key, .error (.processingError m severity)) →
      process_pdf_file env =
        ([.failure correlation_key m],
          if severity = ErrorSeverity.permanent then none
          else some (.processingError m severity))) ∧
    (∀ (env : PipelineEnv) (correlation_key m : String),
      tryBody env = (correlation_key, .error (.configurationError m)) →
      process_pdf_file env = ([.failure correlation_key m], some (.configurationError m))) := by
  constructor
  · intro env correlation_key m severity h
    unfold process_pdf_file
    rw [h]
    cases severity <;> rfl
  · intro env correlation_key m h
    unfold process_pdf_file
    rw [h]
    rfl

/-- C3 witness: the dispatch theorem applied at an environment with a
transient download failure and at one with a storage configuration
failure. -/
theorem c3_severity_dispatch_witness :
    process_pdf_file envT =
      ([.failure ("abc123") ("Failed to download PDF: boom")],
        some (.processingError ("Failed to download PDF: boom") .transient)) ∧
    process_pdf_file envC =
      ([.failure ("UNKNOWN") ("Failed to initialize storage client: nope")],
        some (.configurationError ("Failed to initialize storage client: nope"))) := by
  constructor
  · exact c3_severity_dispatch.1 envT ("abc123") ("Failed to download PDF: boom") .transient rfl
  · exact c3_severity_dispatch.2 envC ("UNKNOWN") ("Failed to initialize storage client: nope") rfl

/-! ## Claim C4 -/

lemma extract_documents_too_many (docs : List PyJson) (h : MAX_OUTPUT_FILES < docs.length) :
    extract_documents (.ok (.arr docs)) =
      .error (.valueError ("Too many documents returned by AI: " ++ toString docs.length ++
        " (max: " ++ toString MAX_OUTPUT_FILES ++ ")")) := by
  show (if MAX_OUTPUT_FILES < docs.length then
      (Except.error (PyExc.valueError ("Too many documents returned by AI: " ++
        toString docs.length ++ " (max: " ++ toString MAX_OUTPUT_FILES ++ ")")) :
        Except PyExc (List PyJson))
    else .ok docs) = _
  rw [if_pos h]

lemma extract_documents_within (docs : List PyJson) (h : docs.length ≤ MAX_OUTPUT_FILES) :
    extract_documents (.ok (.arr docs)) = .ok docs := by
  show (if MAX_OUTPUT_FILES < docs.length then
      (Except.error (PyExc.valueError ("Too many documents returned by AI: " ++
        toString docs.length ++ " (max: " ++ toString MAX_OUTPUT_FILES ++ ")")) :
        Except PyExc (List PyJson))
    else .ok docs) = _
  rw [if_neg (by omega : ¬ MAX_OUTPUT_FILES < docs.length)]

/-- C4 counterexample: with a boundary response of 101 descriptors the
pipeline does publish a single failure Outcome carrying the "Too many
documents" message, but it classifies the error as Transient and
re-raises it — redelivery is requested, refuting the claim's "fails
Permanently — no redelivery requested". -/
theorem c4_counterexample :
    process_pdf_file env101 =
      ([.failure ("abc123")
          ("Failed to process PDF: Too many documents returned by AI: 101 (max: 100)")],
        some (.processingError
          ("Failed to process PDF: Too many documents returned by AI: 101 (max: 100)")
          .transient)) ∧
    (process_pdf_file env101).2 ≠ none := by
  constructor
  · rfl
  · intro hc
    have h2 : (process_pdf_file env101).2 = some (.processingError
        ("Failed to process PDF: Too many documents returned by AI: 101 (max: 100)")
        .transient) := rfl
    rw [h2] at hc
    exact Option.noConfusion hc

/-- C4 (corrected): a boundary response of more than the configured
maximum of 100 descriptors makes extraction fail with `ValueError` ("Too
many documents...") and nothing is processed partially, and a response
of at most the maximum (in particular exactly 100) succeeds; but the
pipeline classifies this failure as Transient, not Permanent: it
publishes a single failure Outcome and then re-raises the error, so
redelivery is requested. -/
theorem c4_too_many_documents :
    (∀ docs : List PyJson, MAX_OUTPUT_FILES < docs.length →
      extract_documents (.ok (.arr docs)) =
        .error (.valueError ("Too many documents returned by AI: " ++ toString docs.length ++
          " (max: " ++ toString MAX_OUTPUT_FILES ++ ")"))) ∧
    (∀ docs : List PyJson, docs.length ≤ MAX_OUTPUT_FILES →
      extract_documents (.ok (.arr docs)) = .ok docs) ∧
    (∀ (env : PipelineEnv) (vr : ValidatedRequest) (docs : List PyJson),
      env.storageInit = .ok () → env.splitterInit = .ok () →
      from_queue_message env.messageJson env.allowedContainers env.urlparse = .ok vr →
      env.tempDir = .ok () → env.download = .ok →
      env.boundaryResponse = .ok (.arr docs) → MAX_OUTPUT_FILES < docs.length →
      process_pdf_file env =
        ([.failure vr.correlation_key
            ("Failed to process PDF: Too many documents returned by AI: " ++
              toString docs.length ++ " (max: " ++ toString MAX_OUTPUT_FILES ++ ")")],
          some (.processingError
            ("Failed to process PDF: Too many documents returned by AI: " ++
              toString docs.length ++ " (max: " ++ toString MAX_OUTPUT_FILES ++ ")")
            .transient))) := by
  refine ⟨extract_documents_too_many, extract_documents_within, ?_⟩
  intro env vr docs h1 h2 h3 h4 h5 h6 h7
  have hext : extract_documents env.boundaryResponse =
      .error (.valueError ("Too many documents returned by AI: " ++ toString docs.length ++
        " (max: " ++ toString MAX_OUTPUT_FILES ++ ")")) := by
    rw [h6]
    exact extract_documents_too_many docs h7
  unfold process_pdf_file tryBody
  simp only [get_storage_client, get_document_splitter, create_secure_temp_dir, download_pdf,
    h1, h2, h3, h4, h5, process_pdf, split_and_save, hext, exceptDispatch, PyExc.message]
  simp only [← String.append_assoc]
  rfl

set_option maxRecDepth 8000 in
/-- C4 witness: the amended theorem applied at 101 descriptors (failure,
Transient, re-raised), at exactly 100 descriptors (success), and at the
concrete environment `env101`. -/
theorem c4_too_many_documents_witness :
    extract_documents (.ok (.arr (List.replicate 101 (.obj [])))) =
      .error (.valueError ("Too many documents returned by AI: 101 (max: 100)")) ∧
    extract_documents (.ok (.arr (List.replicate 100 (.obj [])))) =
      .ok (List.replicate 100 (.obj [])) ∧
    process_pdf_file env101 =
      ([.failure ("abc123")
          ("Failed to process PDF: Too many documents returned by AI: 101 (max: 100)")],
        some (.processingError
          ("Failed to process PDF: Too many documents returned by AI: 101 (max: 100)")
          .transient)) := by
  refine ⟨?_, ?_, ?_⟩
  · exact c4_too_many_documents.1 (List.replicate 101 (.obj []))
      (by norm_num [MAX_OUTPUT_FILES])
  · exact c4_too_many_documents.2.1 (List.replicate 100 (.obj []))
      (by norm_num [MAX_OUTPUT_FILES])
  · exact c4_too_many_documents.2.2 env101 ⟨"abc123", goodUrl⟩
      (List.replicate 101 (.obj [])) rfl rfl rfl rfl rfl rfl
      (by norm_num [MAX_OUTPUT_FILES])

/-! ## Claim C9 -/

lemma transformDocs_ok (rotation_map : Int → Option Int) :
    ∀ docs : List PyJson, (∀ d ∈ docs, ∃ kvs, d = PyJson.obj kvs) →
    ∃ ts, transformDocs rotation_map docs = .ok ts ∧ ts.length = docs.length ∧
      ∀ t ∈ ts, ∃ kvs, t = _transform_document kvs rotation_map common_fields := by
  intro docs
  induction docs with
  | nil =>
    intro _
    exact ⟨[], rfl, rfl, fun t ht => absurd ht (List.not_mem_nil t)⟩
  | cons hd tl ih =>
    intro h
    obtain ⟨kvs, rfl⟩ := h hd (List.mem_cons_self hd tl)
    obtain ⟨ts, hts, hlen, hall⟩ := ih (fun x hx => h x (List.mem_cons_of_mem _ hx))
    refine ⟨_transform_document kvs rotation_map common_fields :: ts, ?_, ?_, ?_⟩
    · unfold transformDocs
      rw [hts]
    · simp [hlen]
    · intro t ht
      rcases List.mem_cons.1 ht with h1 | h2
      · exact ⟨kvs, h1⟩
      · exact hall t h2

lemma transform_rotation_zero (kvs : List (String × PyJson)) :
    ∀ pr ∈ (_transform_document kvs (fun _ => none) common_fields).PAGES_INFO,
      pr.ROTATION = 0 := by
  intro pr hpr
  unfold _transform_document _create_pages_info at hpr
  simp only at hpr
  obtain ⟨p, hp, rfl⟩ := List.mem_map.1 hpr
  rfl

lemma rotationLookup_error (m : String) :
    rotationLookup (.error m) = fun _ => none := rfl

lemma getD_map_range_fn {α : Type} (f : Nat → α) (n i : Nat) (d : α) (h : i < n) :
    ((List.range n).map f).getD i d = f i := by
  rw [List.getD_eq_get?, List.get?_map, List.get?_range h]
  rfl

/-- C9 (confirmed): for every descriptor page range and every
page-to-rotation lookup, the merged pages info holds exactly one entry
per page number in `[START_PAGE_NO, END_PAGE_NO]`, in increasing order
(the entry at position `i` carries page number `START_PAGE_NO + i`),
each entry carrying the lookup's rotation for its page or `0` when the
page is absent; and when rotation extraction fails entirely, the
pipeline still succeeds and every page of every transformed document
carries rotation `0`. -/
theorem c9_pages_info_merge :
    (∀ (start_page end_page : Int) (rotation_map : Int → Option Int),
      (_create_pages_info start_page end_page rotation_map).length =
        (end_page + 1 - start_page).toNat ∧
      ∀ i : Nat, i < (_create_pages_info start_page end_page rotation_map).length →
        ((_create_pages_info start_page end_page rotation_map).getD i ⟨0, 0⟩).PAGE_NO =
          start_page + i ∧
        ((_create_pages_info start_page end_page rotation_map).getD i ⟨0, 0⟩).ROTATION =
          (rotation_map (start_page + i)).getD 0) ∧
    (∀ (src : String) (b : Except String PyJson) (docs : List PyJson) (errMsg : String),
      extract_documents b = .ok docs →
      (∀ d ∈ docs, ∃ kvs, d = PyJson.obj kvs) →
      ∃ res, split_and_save src b (.error errMsg) = .ok res ∧
        process_pdf b (.error errMsg) src = .ok res ∧
        res.documents.length = docs.length ∧
        ∀ d ∈ res.documents, ∀ pr ∈ d.PAGES_INFO, pr.ROTATION = 0) := by
  constructor
  · intro start_page end_page rotation_map
    have hente : _create_pages_info start_page end_page rotation_map =
        (List.range (end_page + 1 - start_page).toNat).map
          (fun i : Nat => (⟨start_page + (i : Int),
            (rotation_map (start_page + (i : Int))).getD 0⟩ : PageInfo)) := by
      unfold _create_pages_info pyRange
      rw [List.map_map]
      rfl
    constructor
    · rw [hente]
      simp
    · intro i h
      rw [hente] at h
      have hlt : i < (end_page + 1 - start_page).toNat := by simpa using h
      rw [hente, getD_map_range_fn _ _ _ _ hlt]
      exact ⟨rfl, rfl⟩
  · intro src b docs errMsg hb hobj
    obtain ⟨ts, hts, hlen, hall⟩ := transformDocs_ok (fun _ => none) docs hobj
    have hsplit : split_and_save src b (.error errMsg) =
        .ok { source_pdf := src, total_documents := ts.length, documents := ts } := by
      unfold split_and_save
      simp only [hb]
      rw [rotationLookup_error, hts]
    refine ⟨{ source_pdf := src, total_documents := ts.length, documents := ts },
      hsplit, ?_, hlen, ?_⟩
    · unfold process_pdf
      rw [hsplit]
    · intro d hd pr hpr
      obtain ⟨kvs, rfl⟩ := hall d hd
      exact transform_rotation_zero kvs pr hpr

/-- C9 witness: the merge theorem applied at the range `[1, 3]` with a
lookup holding a rotation only for page 2, and the whole-pipeline part
applied at the sample boundary response with a failing rotation
extraction. -/
theorem c9_pages_info_merge_witness :
    (_create_pages_info 1 3 (buildRotationMap [(2, 90)])).length = 3 ∧
    ((_create_pages_info 1 3 (buildRotationMap [(2, 90)])).getD 1 ⟨0, 0⟩).ROTATION = 90 ∧
    (∃ res, split_and_save ("input.pdf") (.ok goodBoundary) (.error ("timeout")) = .ok res ∧
      ∀ d ∈ res.documents, ∀ pr ∈ d.PAGES_INFO, pr.ROTATION = 0) := by
  refine ⟨?_, ?_, ?_⟩
  · have h := (c9_pages_info_merge.1 1 3 (buildRotationMap [(2, 90)])).1
    simpa using h
  · have h := ((c9_pages_info_merge.1 1 3 (buildRotationMap [(2, 90)])).2 1 (by decide)).2
    simpa using h
  · have hb9 : extract_documents (.ok goodBoundary) = .ok goodBoundaryDocs := rfl
    have hobj : ∀ d ∈ goodBoundaryDocs, ∃ kvs, d = PyJson.obj kvs := by
      intro d hd
      simp only [goodBoundaryDocs, List.mem_singleton] at hd
      exact ⟨_, hd⟩
    obtain ⟨res, h1, _, _, h4⟩ := c9_pages_info_merge.2 ("input.pdf") (.ok goodBoundary)
      goodBoundaryDocs ("timeout") hb9 hobj
    exact ⟨res, h1, h4⟩
